import Mathlib

/-!
Shallow embedding of `src/telegram/fake.cpp`: a programmable fake HTTP server
used in integration tests of a Telegram Bot API client.  The embedding models
the expectation/fulfillment state machine (`TestCase` and its four concrete
variants), the request-matching primitives (`ExpectURI`, `ExpectMethod`), the
aggregating `Check`, and the request handler (`FakeHandler::handleRequest`)
that translates domain failures into HTTP statuses.

Modelling conventions:
* `Poco::URI` values are represented already parsed, as host, path and the
  list of query `(key, value)` pairs, since URI parsing itself is an external
  library concern.
* `std::sort` over `std::vector<std::pair<std::string, std::string>>` is
  modelled by `List.insertionSort` with the lexicographic (non-strict) order
  on pairs of strings: both produce the unique sorted permutation, because
  the order is total and antisymmetric.
* `TestCase::Fail` pushes a message and throws `CheckFailedException`; the
  push is the pure function `TestCase.Fail`, and the throw appears as the
  `Outcome.checkFailed` result at each call site.
* The JSON parsing of a `sendMessage` body (an external library that throws
  on malformed input or missing fields) is modelled by the request carrying
  `Except String MsgBody`: `.error e` stands for a body whose parsing or
  field extraction throws an exception with message `e`.
* `HTTPServerRequest::get` (header lookup), which throws `NotFoundException`
  when the header is absent, is modelled by `Request.get` returning
  `Except String String`.
-/

/-- A parsed URI: the host, the path, and the query parameters as the ordered
list of `(key, value)` pairs, exactly what `Poco::URI::getHost`, `getPath`
and `getQueryParameters` return. -/
structure URI where
  host : String
  path : String
  query : List (String × String)
deriving DecidableEq

/-- Lexicographic (non-strict) comparison of character lists by code point:
the byte-lexicographic order `std::string` comparison uses. -/
def listCharLe : List Char → List Char → Bool
  | [], _ => true
  | _ :: _, [] => false
  | a :: as, b :: bs =>
    if a.toNat < b.toNat then true
    else if b.toNat < a.toNat then false
    else listCharLe as bs

/-- Non-strict string comparison, byte-lexicographic like `std::string`. -/
def strLe (a b : String) : Bool := listCharLe a.data b.data

/-- The lexicographic order on `(key, value)` pairs of strings, as a boolean:
the non-strict form of the `operator<` that `std::sort` uses on
`std::pair<std::string, std::string>` (sorting by either yields the same
unique sorted permutation, the order being total and antisymmetric). -/
def pairLeB (a b : String × String) : Bool :=
  if a.1 = b.1 then strLe a.2 b.2 else strLe a.1 b.1

/-- `pairLeB` as a relation, for use with `List.insertionSort`. -/
def pairLe (a b : String × String) : Prop := pairLeB a b = true

instance : DecidableRel pairLe := fun a b =>
  inferInstanceAs (Decidable (pairLeB a b = true))

theorem listCharLe_total : ∀ x y : List Char, listCharLe x y = true ∨ listCharLe y x = true
  | [], _ => Or.inl rfl
  | _ :: _, [] => Or.inr rfl
  | a :: as, b :: bs => by
    by_cases h1 : a.toNat < b.toNat
    · exact Or.inl (by simp [listCharLe, h1])
    · by_cases h2 : b.toNat < a.toNat
      · exact Or.inr (by simp [listCharLe, h1, h2])
      · rcases listCharLe_total as bs with h | h
        · exact Or.inl (by simp [listCharLe, h1, h2, h])
        · exact Or.inr (by simp [listCharLe, h1, h2, h])

theorem listCharLe_trans : ∀ {x y z : List Char},
    listCharLe x y = true → listCharLe y z = true → listCharLe x z = true
  | [], _, _, _, _ => rfl
  | _ :: _, [], _, hxy, _ => by simp [listCharLe] at hxy
  | _ :: _, _ :: _, [], _, hyz => by simp [listCharLe] at hyz
  | a :: as, b :: bs, c :: cs, hxy, hyz => by
    simp only [listCharLe] at hxy hyz ⊢
    by_cases h1 : a.toNat < b.toNat
    · by_cases h2 : b.toNat < c.toNat
      · have h3 : a.toNat < c.toNat := h1.trans h2
        simp [h3]
      · by_cases h4 : c.toNat < b.toNat
        · simp [h2, h4] at hyz
        · have h3 : a.toNat < c.toNat := by omega
          simp [h3]
    · by_cases h2 : b.toNat < a.toNat
      · simp [h1, h2] at hxy
      · by_cases h3 : b.toNat < c.toNat
        · have h5 : a.toNat < c.toNat := by omega
          simp [h5]
        · by_cases h4 : c.toNat < b.toNat
          · simp [h3, h4] at hyz
          · have h5 : ¬ a.toNat < c.toNat := by omega
            have h6 : ¬ c.toNat < a.toNat := by omega
            simp only [h1, h2, if_false, ite_false] at hxy
            simp only [h3, h4, if_false, ite_false] at hyz
            simp [h5, h6]
            exact listCharLe_trans hxy hyz

theorem listCharLe_antisymm : ∀ {x y : List Char},
    listCharLe x y = true → listCharLe y x = true → x = y
  | [], [], _, _ => rfl
  | [], _ :: _, _, hyx => by simp [listCharLe] at hyx
  | _ :: _, [], hxy, _ => by simp [listCharLe] at hxy
  | a :: as, b :: bs, hxy, hyx => by
    simp only [listCharLe] at hxy hyx
    by_cases h1 : a.toNat < b.toNat
    · have h2 : ¬ b.toNat < a.toNat := by omega
      simp [h1, h2] at hyx
    · by_cases h2 : b.toNat < a.toNat
      · simp [h1, h2] at hxy
      · simp only [h1, h2, ite_false, if_false] at hxy hyx
        have hn : a.toNat = b.toNat := by omega
        have hab : a = b := Char.eq_of_val_eq (UInt32.ext hn)
        rw [hab, listCharLe_antisymm hxy hyx]

theorem strLe_antisymm {a b : String} (h1 : strLe a b = true) (h2 : strLe b a = true) :
    a = b := by
  cases a; cases b
  exact congrArg String.mk (listCharLe_antisymm h1 h2)

instance : IsTotal (String × String) pairLe := by
  constructor
  intro a b
  unfold pairLe pairLeB
  by_cases h : a.1 = b.1
  · rw [if_pos h, if_pos h.symm]
    exact listCharLe_total a.2.data b.2.data
  · rw [if_neg h, if_neg (fun e => h e.symm)]
    exact listCharLe_total a.1.data b.1.data

instance : IsTrans (String × String) pairLe := by
  constructor
  intro a b c hab hbc
  unfold pairLe pairLeB at hab hbc ⊢
  by_cases h1 : a.1 = b.1
  · rw [if_pos h1] at hab
    by_cases h2 : b.1 = c.1
    · rw [if_pos h2] at hbc
      rw [if_pos (h1.trans h2)]
      exact listCharLe_trans hab hbc
    · rw [if_neg h2] at hbc
      rw [if_neg (fun e : a.1 = c.1 => h2 (h1 ▸ e)), h1]
      exact hbc
  · rw [if_neg h1] at hab
    by_cases h2 : b.1 = c.1
    · rw [if_neg (fun e : a.1 = c.1 => h1 (e.trans h2.symm)), ← h2]
      exact hab
    · rw [if_neg h2] at hbc
      by_cases h3 : a.1 = c.1
      · exact absurd (strLe_antisymm hbc (h3 ▸ hab)) h2
      · rw [if_neg h3]
        exact listCharLe_trans hab hbc

instance : IsAntisymm (String × String) pairLe := by
  constructor
  intro a b hab hba
  unfold pairLe pairLeB at hab hba
  by_cases h : a.1 = b.1
  · rw [if_pos h] at hab
    rw [if_pos h.symm] at hba
    exact Prod.ext h (strLe_antisymm hab hba)
  · rw [if_neg h] at hab
    rw [if_neg (fun e => h e.symm)] at hba
    exact absurd (strLe_antisymm hab hba) h

/-- The sorting of a query-parameter vector performed by `std::sort` in
`TestCase::ExpectURI`. -/
def sortQuery (q : List (String × String)) : List (String × String) :=
  List.insertionSort pairLe q

/-- `TestCase::ExpectURI`: compares host and path for string equality and the
sorted query-parameter collections for equality.  Returns `some message` when
the corresponding `Fail(message)` call fires (which also throws), `none` when
the URI matches. -/
def ExpectURI (req_uri : URI) (compare_uri : URI) : Option String :=
  if req_uri.host ≠ compare_uri.host then
    some ("Invalid Host: expected " ++ compare_uri.host ++ ", got " ++ req_uri.host)
  else if req_uri.path ≠ compare_uri.path then
    some ("Invalid Path: expected " ++ compare_uri.path ++ ", got " ++ req_uri.path)
  else if sortQuery req_uri.query ≠ sortQuery compare_uri.query then
    some ("Invalid Query params")
  else
    none

/-- `TestCase::ExpectMethod`: exact string equality on the HTTP verb.
Returns the failure message when the methods differ. -/
def ExpectMethod (req_method : String) (method : String) : Option String :=
  if req_method ≠ method then
    some ("Invalid method: expected " ++ method ++ ", got " ++ req_method)
  else
    none

/-- The fields `GetUpdatesAndSendMessagesTestCase::HandleRequest` extracts
from a `sendMessage` JSON body: `chat_id`, `text`, and the optional
`reply_to_message_id` (`none` models `has("reply_to_message_id")` false). -/
structure MsgBody where
  chat_id : Int
  text : String
  reply_to_message_id : Option Int
deriving DecidableEq

deriving instance DecidableEq for Except

/-- An incoming HTTP request as the test cases observe it: parsed URI,
method, headers, and the outcome of parsing its body as a JSON message
(`.error e` models a body whose JSON parsing or field extraction throws). -/
structure Request where
  uri : URI
  method : String
  headers : List (String × String)
  body : Except String MsgBody
deriving DecidableEq

/-- `HTTPServerRequest::get(name)`: returns the header value, or throws
`NotFoundException` (modelled as `.error`) when the header is absent. -/
def Request.get (request : Request) (name : String) : Except String String :=
  match request.headers.lookup name with
  | some v => Except.ok v
  | none => Except.error ("Not found: " ++ name)

/-- An HTTP response as written by a test case: status code and body. -/
structure Response where
  status : Nat
  body : String
deriving DecidableEq

namespace FakeData

/-- Opaque fixture from `fake_data.h` (external to the core): the canned
`getMe` identity JSON. -/
def GetMeJson : String := "fixture:GetMeJson"

/-- Opaque fixture: the canned structured-error JSON for `getMe`. -/
def GetMeErrorJson : String := "fixture:GetMeErrorJson"

/-- Opaque fixture: four pending updates for the send-messages scenario. -/
def GetUpdatesFourMessagesJson : String := "fixture:GetUpdatesFourMessagesJson"

/-- Opaque fixture: confirmation of the first sent message. -/
def SendMessageHiJson : String := "fixture:SendMessageHiJson"

/-- Opaque fixture: confirmation of a reply message. -/
def SendMessageReplyJson : String := "fixture:SendMessageReplyJson"

/-- Opaque fixture: two pending updates, second update id 851793508. -/
def GetUpdatesTwoMessages : String := "fixture:GetUpdatesTwoMessages"

/-- Opaque fixture: no pending updates. -/
def GetUpdatesZeroMessages : String := "fixture:GetUpdatesZeroMessages"

/-- Opaque fixture: one pending update. -/
def GetupdatesOneMessage : String := "fixture:GetupdatesOneMessage"

end FakeData

/-- The mutable state of a `TestCase`: the expectation descriptions (fixed at
construction), the fulfillment counter (`int Fulfilled = 0`), and the failure
list (`std::vector<std::string> Fails`). -/
structure TCState where
  Expectations : List String
  Fulfilled : Nat
  Fails : List String
deriving DecidableEq

/-- The state effect of `TestCase::Fail`: push the message onto `Fails`.
The accompanying `throw CheckFailedException()` is represented by the
`Outcome.checkFailed` result at each call site. -/
def TestCase.Fail (s : TCState) (message : String) : TCState :=
  { s with Fails := s.Fails ++ [message] }

/-- `TestCase::Check`: builds one line `Expectation not satisfied: e` for
every expectation at index `Fulfilled` or beyond and one line
`Error encountered: f` for every recorded failure; throws a `runtime_error`
carrying those lines (here `some lines`) when any line exists, otherwise
returns normally (`none`). -/
def TestCase.Check (s : TCState) : Option (List String) :=
  let lines :=
    (s.Expectations.drop s.Fulfilled).map (fun e => "Expectation not satisfied: " ++ e)
      ++ s.Fails.map (fun e => "Error encountered: " ++ e)
  if lines = [] then none else some lines

/-- How one call to a `HandleRequest` override terminates: a normal return
after writing a response, a `CheckFailedException` thrown by `Fail`, or any
other exception (modelled with its message). -/
inductive Outcome where
  | ok (resp : Response)
  | checkFailed
  | otherError (msg : String)
deriving DecidableEq

/-- The step dispatch of `SingleGetMeTestCase::HandleRequest` after the
counter increment: first request answered `200` with the identity fixture,
any further request fails. -/
def SingleGetMeTestCase.respond (s : TCState) : TCState × Outcome :=
  if s.Fulfilled = 1 then
    (s, Outcome.ok { status := 200, body := FakeData.GetMeJson })
  else
    (TestCase.Fail s ("Unexpected extra request"), Outcome.checkFailed)

/-- `SingleGetMeTestCase::HandleRequest`: validates URI and method, then
increments `Fulfilled` and dispatches. -/
def SingleGetMeTestCase.HandleRequest (s : TCState) (request : Request) :
    TCState × Outcome :=
  match ExpectURI request.uri { host := "", path := "/bot123/getMe", query := [] } with
  | some m => (TestCase.Fail s m, Outcome.checkFailed)
  | none =>
    match ExpectMethod request.method ("GET") with
    | some m => (TestCase.Fail s m, Outcome.checkFailed)
    | none => SingleGetMeTestCase.respond { s with Fulfilled := s.Fulfilled + 1 }

/-- The step dispatch of `ErrorHandlingTestCase::HandleRequest` after the
counter increment: `500` with a plain-text body, then `401` with the
structured error fixture, then failure. -/
def ErrorHandlingTestCase.respond (s : TCState) : TCState × Outcome :=
  if s.Fulfilled = 1 then
    (s, Outcome.ok { status := 500, body := "Internal server error" })
  else if s.Fulfilled = 2 then
    (s, Outcome.ok { status := 401, body := FakeData.GetMeErrorJson })
  else
    (TestCase.Fail s ("Unexpected extra request"), Outcome.checkFailed)

/-- `ErrorHandlingTestCase::HandleRequest`: validates URI and method, then
increments `Fulfilled` and dispatches. -/
def ErrorHandlingTestCase.HandleRequest (s : TCState) (request : Request) :
    TCState × Outcome :=
  match ExpectURI request.uri { host := "", path := "/bot123/getMe", query := [] } with
  | some m => (TestCase.Fail s m, Outcome.checkFailed)
  | none =>
    match ExpectMethod request.method ("GET") with
    | some m => (TestCase.Fail s m, Outcome.checkFailed)
    | none => ErrorHandlingTestCase.respond { s with Fulfilled := s.Fulfilled + 1 }

/-- The step dispatch of `GetUpdatesAndSendMessagesTestCase::HandleRequest`
after the counter increment: a `getUpdates` poll followed by three
`sendMessage` steps validating headers and the JSON body fields. -/
def GetUpdatesAndSendMessagesTestCase.dispatch (s : TCState) (request : Request) :
    TCState × Outcome :=
  if s.Fulfilled = 1 then
    match ExpectURI request.uri { host := "", path := "/bot123/getUpdates", query := [] } with
    | some m => (TestCase.Fail s m, Outcome.checkFailed)
    | none =>
      match ExpectMethod request.method ("GET") with
      | some m => (TestCase.Fail s m, Outcome.checkFailed)
      | none =>
        (s, Outcome.ok { status := 200, body := FakeData.GetUpdatesFourMessagesJson })
  else if s.Fulfilled = 2 then
    match ExpectURI request.uri { host := "", path := "/bot123/sendMessage", query := [] } with
    | some m => (TestCase.Fail s m, Outcome.checkFailed)
    | none =>
      match ExpectMethod request.method ("POST") with
      | some m => (TestCase.Fail s m, Outcome.checkFailed)
      | none =>
        match request.get ("Content-Type") with
        | Except.error e => (s, Outcome.otherError e)
        | Except.ok ct =>
          if ct ≠ "application/json" then
            (TestCase.Fail s ("Content-Type header is not set"), Outcome.checkFailed)
          else
            match request.body with
            | Except.error e => (s, Outcome.otherError e)
            | Except.ok msg =>
              if msg.text ≠ "Hi!" then
                (TestCase.Fail s ("Invalid text in message #1"), Outcome.checkFailed)
              else if msg.chat_id ≠ 104519755 then
                (TestCase.Fail s ("Invalid chat_id in message #1"), Outcome.checkFailed)
              else
                (s, Outcome.ok { status := 200, body := FakeData.SendMessageHiJson })
  else if s.Fulfilled = 3 ∨ s.Fulfilled = 4 then
    match ExpectURI request.uri { host := "", path := "/bot123/sendMessage", query := [] } with
    | some m => (TestCase.Fail s m, Outcome.checkFailed)
    | none =>
      match ExpectMethod request.method ("POST") with
      | some m => (TestCase.Fail s m, Outcome.checkFailed)
      | none =>
        match request.get ("Content-Type") with
        | Except.error e => (s, Outcome.otherError e)
        | Except.ok ct =>
          if ct ≠ "application/json" then
            (TestCase.Fail s ("Content-Type header is not set"), Outcome.checkFailed)
          else
            match request.body with
            | Except.error e => (s, Outcome.otherError e)
            | Except.ok msg =>
              if msg.text ≠ "Reply" then
                (TestCase.Fail s ("Invalid text in reply message"), Outcome.checkFailed)
              else if msg.chat_id ≠ 104519755 then
                (TestCase.Fail s ("Invalid chat id in reply message"), Outcome.checkFailed)
              else if msg.reply_to_message_id ≠ some 2 then
                (TestCase.Fail s ("reply_to_message_id field is incorrect"), Outcome.checkFailed)
              else
                (s, Outcome.ok { status := 200, body := FakeData.SendMessageReplyJson })
  else
    (TestCase.Fail s ("Unexpected extra request"), Outcome.checkFailed)

/-- `GetUpdatesAndSendMessagesTestCase::HandleRequest`: increments
`Fulfilled` first, then dispatches on the new counter value. -/
def GetUpdatesAndSendMessagesTestCase.HandleRequest (s : TCState) (request : Request) :
    TCState × Outcome :=
  GetUpdatesAndSendMessagesTestCase.dispatch { s with Fulfilled := s.Fulfilled + 1 } request

/-- The step dispatch of `HandleOffsetTestCase::HandleRequest` after the
counter increment: three `getUpdates` polls whose query must carry the
correct `offset` and `timeout` parameters. -/
def HandleOffsetTestCase.dispatch (s : TCState) (request : Request) :
    TCState × Outcome :=
  if s.Fulfilled = 1 then
    match ExpectURI request.uri
        { host := "", path := "/bot123/getUpdates", query := [("timeout", "5")] } with
    | some m => (TestCase.Fail s m, Outcome.checkFailed)
    | none =>
      match ExpectMethod request.method ("GET") with
      | some m => (TestCase.Fail s m, Outcome.checkFailed)
      | none =>
        (s, Outcome.ok { status := 200, body := FakeData.GetUpdatesTwoMessages })
  else if s.Fulfilled = 2 then
    match ExpectURI request.uri
        { host := "", path := "/bot123/getUpdates",
          query := [("offset", "851793508"), ("timeout", "5")] } with
    | some m => (TestCase.Fail s m, Outcome.checkFailed)
    | none =>
      match ExpectMethod request.method ("GET") with
      | some m => (TestCase.Fail s m, Outcome.checkFailed)
      | none =>
        (s, Outcome.ok { status := 200, body := FakeData.GetUpdatesZeroMessages })
  else if s.Fulfilled = 3 then
    match ExpectURI request.uri
        { host := "", path := "/bot123/getUpdates",
          query := [("offset", "851793508"), ("timeout", "5")] } with
    | some m => (TestCase.Fail s m, Outcome.checkFailed)
    | none =>
      match ExpectMethod request.method ("GET") with
      | some m => (TestCase.Fail s m, Outcome.checkFailed)
      | none =>
        (s, Outcome.ok { status := 200, body := FakeData.GetupdatesOneMessage })
  else
    (TestCase.Fail s ("Unexpected extra request"), Outcome.checkFailed)

/-- `HandleOffsetTestCase::HandleRequest`: increments `Fulfilled` first,
then dispatches on the new counter value. -/
def HandleOffsetTestCase.HandleRequest (s : TCState) (request : Request) :
    TCState × Outcome :=
  HandleOffsetTestCase.dispatch { s with Fulfilled := s.Fulfilled + 1 } request

/-- The closed set of `TestCase` variants defined in `fake.cpp`. -/
inductive Variant where
  | singleGetMe
  | errorHandling
  | getUpdatesAndSendMessages
  | handleOffset
deriving DecidableEq

/-- The expectation list each variant constructor installs. -/
def Variant.Expectations : Variant → List String
  | Variant.singleGetMe => ["Client sends getMe request"]
  | Variant.errorHandling =>
    ["Client sends getMe request and receives Internal Server error",
     "Client sends getMe request and receives error json"]
  | Variant.getUpdatesAndSendMessages =>
    ["Client sends getUpdates request", "Client sends message \"Hi!\"",
     "Client sends reply \"Reply\"", "Client sends reply \"Reply\""]
  | Variant.handleOffset =>
    ["Client sends request and receives 2 messages",
     "Client sends request with correct offset and receives 0 messages",
     "Client sends request with current offset and receives 1 message"]

/-- The state of a freshly constructed test case: its expectation list,
`Fulfilled = 0`, no failures. -/
def initState (v : Variant) : TCState :=
  { Expectations := v.Expectations, Fulfilled := 0, Fails := [] }

/-- Virtual dispatch of `TestCase::HandleRequest` over the four variants. -/
def TestCase.HandleRequest (v : Variant) (s : TCState) (request : Request) :
    TCState × Outcome :=
  match v with
  | Variant.singleGetMe => SingleGetMeTestCase.HandleRequest s request
  | Variant.errorHandling => ErrorHandlingTestCase.HandleRequest s request
  | Variant.getUpdatesAndSendMessages =>
    GetUpdatesAndSendMessagesTestCase.HandleRequest s request
  | Variant.handleOffset => HandleOffsetTestCase.HandleRequest s request

/-- How `FakeHandler::handleRequest` terminates: either an HTTP response was
written, or an exception escaped the handler. -/
inductive HandlerResult where
  | responded (resp : Response)
  | propagated
deriving DecidableEq

/-- `FakeHandler::handleRequest`: runs the test case's `HandleRequest` under
the mutex.  A `CheckFailedException` is answered with HTTP 400 and an empty
body; any other exception is recorded via `Fail(e.what())` — whose own
`CheckFailedException` then escapes the handler, so the request is never
answered. -/
def FakeHandler.handleRequest (v : Variant) (s : TCState) (request : Request) :
    TCState × HandlerResult :=
  match TestCase.HandleRequest v s request with
  | (s1, Outcome.ok resp) => (s1, HandlerResult.responded resp)
  | (s1, Outcome.checkFailed) =>
    (s1, HandlerResult.responded { status := 400, body := "" })
  | (s1, Outcome.otherError msg) => (TestCase.Fail s1 msg, HandlerResult.propagated)

/-- Sequentially handle a list of requests through `FakeHandler`, as the
serialized HTTP server does, returning the final test-case state. -/
def runRequests (v : Variant) (s : TCState) : List Request → TCState
  | [] => s
  | r :: rs => runRequests v (FakeHandler.handleRequest v s r).1 rs

theorem singleGetMe_respond_fulfilled (s : TCState) :
    (SingleGetMeTestCase.respond s).1.Fulfilled = s.Fulfilled := by
  unfold SingleGetMeTestCase.respond
  split <;> rfl

theorem errorHandling_respond_fulfilled (s : TCState) :
    (ErrorHandlingTestCase.respond s).1.Fulfilled = s.Fulfilled := by
  unfold ErrorHandlingTestCase.respond
  repeat' split
  all_goals rfl

theorem getUpdates_dispatch_fulfilled (s : TCState) (r : Request) :
    (GetUpdatesAndSendMessagesTestCase.dispatch s r).1.Fulfilled = s.Fulfilled := by
  unfold GetUpdatesAndSendMessagesTestCase.dispatch
  repeat' split
  all_goals rfl

theorem handleOffset_dispatch_fulfilled (s : TCState) (r : Request) :
    (HandleOffsetTestCase.dispatch s r).1.Fulfilled = s.Fulfilled := by
  unfold HandleOffsetTestCase.dispatch
  repeat' split
  all_goals rfl

theorem HandleRequest_expectations (v : Variant) (s : TCState) (r : Request) :
    (TestCase.HandleRequest v s r).1.Expectations = s.Expectations := by
  cases v <;>
    simp only [TestCase.HandleRequest, SingleGetMeTestCase.HandleRequest,
      SingleGetMeTestCase.respond, ErrorHandlingTestCase.HandleRequest,
      ErrorHandlingTestCase.respond, GetUpdatesAndSendMessagesTestCase.HandleRequest,
      GetUpdatesAndSendMessagesTestCase.dispatch, HandleOffsetTestCase.HandleRequest,
      HandleOffsetTestCase.dispatch] <;>
    (repeat' split) <;> rfl

theorem HandleRequest_fails_append (v : Variant) (s : TCState) (r : Request) :
    ∃ t, (TestCase.HandleRequest v s r).1.Fails = s.Fails ++ t := by
  cases v <;>
    simp only [TestCase.HandleRequest, SingleGetMeTestCase.HandleRequest,
      SingleGetMeTestCase.respond, ErrorHandlingTestCase.HandleRequest,
      ErrorHandlingTestCase.respond, GetUpdatesAndSendMessagesTestCase.HandleRequest,
      GetUpdatesAndSendMessagesTestCase.dispatch, HandleOffsetTestCase.HandleRequest,
      HandleOffsetTestCase.dispatch] <;>
    (repeat' split) <;>
    first
      | exact ⟨[], (List.append_nil _).symm⟩
      | exact ⟨_, rfl⟩

theorem HandleRequest_checkFailed_append (v : Variant) (s : TCState) (r : Request)
    (h : (TestCase.HandleRequest v s r).2 = Outcome.checkFailed) :
    ∃ m, (TestCase.HandleRequest v s r).1.Fails = s.Fails ++ [m] := by
  revert h
  cases v <;>
    simp only [TestCase.HandleRequest, SingleGetMeTestCase.HandleRequest,
      SingleGetMeTestCase.respond, ErrorHandlingTestCase.HandleRequest,
      ErrorHandlingTestCase.respond, GetUpdatesAndSendMessagesTestCase.HandleRequest,
      GetUpdatesAndSendMessagesTestCase.dispatch, HandleOffsetTestCase.HandleRequest,
      HandleOffsetTestCase.dispatch] <;>
    (repeat' split) <;>
    intro h <;>
    first
      | exact ⟨_, rfl⟩
      | simp at h

theorem HandleRequest_counter_bound (v : Variant) (s : TCState) (r : Request) :
    (TestCase.HandleRequest v s r).1.Fulfilled ≤ v.Expectations.length
      ∨ (TestCase.HandleRequest v s r).1.Fails ≠ [] := by
  cases v <;>
    simp only [TestCase.HandleRequest, SingleGetMeTestCase.HandleRequest,
      SingleGetMeTestCase.respond, ErrorHandlingTestCase.HandleRequest,
      ErrorHandlingTestCase.respond, GetUpdatesAndSendMessagesTestCase.HandleRequest,
      GetUpdatesAndSendMessagesTestCase.dispatch, HandleOffsetTestCase.HandleRequest,
      HandleOffsetTestCase.dispatch] <;>
    (repeat' split) <;>
    first
      | (refine Or.inr ?_
         simp [TestCase.Fail]
         done)
      | (refine Or.inl ?_
         simp only [Variant.Expectations, List.length_cons, List.length_nil]
         omega)

theorem handleRequest_expectations (v : Variant) (s : TCState) (r : Request) :
    (FakeHandler.handleRequest v s r).1.Expectations = s.Expectations := by
  unfold FakeHandler.handleRequest
  have hE := HandleRequest_expectations v s r
  split
  next s1 resp heq => rw [heq] at hE; exact hE
  next s1 heq => rw [heq] at hE; exact hE
  next s1 msg heq => rw [heq] at hE; simpa [TestCase.Fail] using hE

theorem handleRequest_fails_append (v : Variant) (s : TCState) (r : Request) :
    ∃ t, (FakeHandler.handleRequest v s r).1.Fails = s.Fails ++ t := by
  unfold FakeHandler.handleRequest
  obtain ⟨t, ht⟩ := HandleRequest_fails_append v s r
  split
  next s1 resp heq => rw [heq] at ht; exact ⟨t, ht⟩
  next s1 heq => rw [heq] at ht; exact ⟨t, ht⟩
  next s1 msg heq =>
    rw [heq] at ht
    refine ⟨t ++ [msg], ?_⟩
    simp only [TestCase.Fail]
    rw [show (s1, Outcome.otherError msg).1.Fails = s1.Fails from rfl] at ht
    rw [ht, List.append_assoc]

theorem handleRequest_counter_bound (v : Variant) (s : TCState) (r : Request) :
    (FakeHandler.handleRequest v s r).1.Fulfilled ≤ v.Expectations.length
      ∨ (FakeHandler.handleRequest v s r).1.Fails ≠ [] := by
  unfold FakeHandler.handleRequest
  have hB := HandleRequest_counter_bound v s r
  split
  next s1 resp heq => rw [heq] at hB; exact hB
  next s1 heq => rw [heq] at hB; exact hB
  next s1 msg heq =>
    refine Or.inr ?_
    simp [TestCase.Fail]

theorem runRequests_inv (v : Variant) (rs : List Request) (s : TCState)
    (hE : s.Expectations = v.Expectations)
    (hB : s.Fulfilled ≤ v.Expectations.length ∨ s.Fails ≠ []) :
    (runRequests v s rs).Expectations = v.Expectations ∧
      ((runRequests v s rs).Fulfilled ≤ v.Expectations.length
        ∨ (runRequests v s rs).Fails ≠ []) := by
  induction rs generalizing s with
  | nil => exact ⟨hE, hB⟩
  | cons r rs ih =>
    simp only [runRequests]
    exact ih (FakeHandler.handleRequest v s r).1
      (by rw [handleRequest_expectations]; exact hE)
      (handleRequest_counter_bound v s r)

theorem runRequests_fails_append (v : Variant) (rs : List Request) (s : TCState) :
    ∃ t, (runRequests v s rs).Fails = s.Fails ++ t := by
  induction rs generalizing s with
  | nil => exact ⟨[], (List.append_nil _).symm⟩
  | cons r rs ih =>
    simp only [runRequests]
    obtain ⟨t1, h1⟩ := handleRequest_fails_append v s r
    obtain ⟨t2, h2⟩ := ih (FakeHandler.handleRequest v s r).1
    exact ⟨t1 ++ t2, by rw [h2, h1, List.append_assoc]⟩

theorem Check_eq_none_iff (s : TCState) :
    TestCase.Check s = none ↔ s.Expectations.length ≤ s.Fulfilled ∧ s.Fails = [] := by
  simp only [TestCase.Check]
  split
  next h =>
    simp only [List.append_eq_nil, List.map_eq_nil_iff, List.drop_eq_nil_iff] at h
    exact iff_of_true rfl h
  next h =>
    simp only [List.append_eq_nil, List.map_eq_nil_iff, List.drop_eq_nil_iff] at h
    exact iff_of_false (by simp) h

theorem mem_drop_of_le {α : Type} {l : List α} {n i : Nat}
    (hn : n ≤ i) (hi : i < l.length) : l[i] ∈ l.drop n := by
  rw [List.mem_iff_getElem]
  refine ⟨i - n, ?_, ?_⟩
  · rw [List.length_drop]; omega
  · rw [List.getElem_drop]
    congr 1
    omega

theorem sortQuery_eq_of_perm {q1 q2 : List (String × String)} (h : q1.Perm q2) :
    sortQuery q1 = sortQuery q2 :=
  List.eq_of_perm_of_sorted
    ((List.perm_insertionSort pairLe q1).trans
      (h.trans (List.perm_insertionSort pairLe q2).symm))
    (List.sorted_insertionSort pairLe q1) (List.sorted_insertionSort pairLe q2)

/-- The scripted `getMe` request: `GET /bot123/getMe`, no headers, and a body
that is not parseable JSON (a GET request carries none). -/
def getMeRequest : Request :=
  { uri := { host := "", path := "/bot123/getMe", query := [] },
    method := "GET", headers := [], body := Except.error ("No JSON body") }

/-- The first scripted poll of the pagination scenario:
`GET /bot123/getUpdates?timeout=5`. -/
def offsetRequest1 : Request :=
  { uri := { host := "", path := "/bot123/getUpdates", query := [("timeout", "5")] },
    method := "GET", headers := [], body := Except.error ("No JSON body") }

/-- A `getUpdates` poll carrying query parameters `offset=x` and `timeout=5`. -/
def offsetRequest (x : String) : Request :=
  { uri := { host := "", path := "/bot123/getUpdates", query := [("offset", x), ("timeout", "5")] },
    method := "GET", headers := [], body := Except.error ("No JSON body") }

/-- The correct second and third poll of the pagination scenario:
`GET /bot123/getUpdates?offset=851793508&timeout=5`. -/
def offsetRequest2 : Request := offsetRequest ("851793508")

/-- A `sendMessage` request whose JSON body fails to parse: the
`Content-Type` header is present and correct, but reading the body throws. -/
def badBodyRequest : Request :=
  { uri := { host := "", path := "/bot123/sendMessage", query := [] },
    method := "POST", headers := [("Content-Type", "application/json")],
    body := Except.error ("JSON parse error") }

/-- A request whose URI matches no scripted expectation. -/
def badPathRequest : Request :=
  { uri := { host := "", path := "/bot999/other", query := [] },
    method := "GET", headers := [], body := Except.error ("No JSON body") }

theorem sortQuery_offset_pair (y : String) :
    sortQuery [("offset", y), ("timeout", "5")] = [("offset", y), ("timeout", "5")] := by
  have hne0 : ¬ ("offset" : String) = "timeout" := by decide
  have hp : pairLe ("offset", y) ("timeout", "5") := by
    unfold pairLe pairLeB
    dsimp only
    rw [if_neg hne0]
    decide
  simp only [sortQuery, List.insertionSort, List.orderedInsert]
  rw [if_pos hp]

theorem ExpectURI_wrong_offset (x : String) (hx : x ≠ "851793508") :
    ExpectURI (offsetRequest x).uri
      { host := "", path := "/bot123/getUpdates",
        query := [("offset", "851793508"), ("timeout", "5")] }
      = some ("Invalid Query params") := by
  have hne : sortQuery [("offset", x), ("timeout", "5")]
      ≠ sortQuery [("offset", "851793508"), ("timeout", "5")] := by
    rw [sortQuery_offset_pair x, sortQuery_offset_pair ("851793508")]
    intro hEq
    simp only [List.cons.injEq, Prod.mk.injEq, and_true, true_and] at hEq
    exact hx hEq
  unfold ExpectURI
  dsimp only [offsetRequest]
  rw [if_neg (by decide), if_neg (by decide), if_pos hne]

/-- C1 counterexample: the claim that every variant increments the
fulfillment counter by one on every request, before any validation, fails on
`SingleGetMeTestCase`: that variant validates the URI and method first, so
handling `GET /bot999/other` from the initial state leaves the counter at
`0` instead of advancing it to `1`. -/
theorem singleGetMe_no_increment_on_invalid_request :
    ¬ ((TestCase.HandleRequest Variant.singleGetMe (initState Variant.singleGetMe)
        badPathRequest).1.Fulfilled
      = (initState Variant.singleGetMe).Fulfilled + 1) := by
  decide

/-- C1 amended: `HandleOffsetTestCase` and
`GetUpdatesAndSendMessagesTestCase` increment the fulfillment counter by
exactly one on every request, before any validation; `SingleGetMeTestCase`
and `ErrorHandlingTestCase` validate the URI and the method first and
increment only when both pass, leaving the counter unchanged when either
check fails. -/
theorem fulfillment_counter_increment (s : TCState) (request : Request) :
    ((TestCase.HandleRequest Variant.handleOffset s request).1.Fulfilled = s.Fulfilled + 1)
    ∧ ((TestCase.HandleRequest Variant.getUpdatesAndSendMessages s request).1.Fulfilled
        = s.Fulfilled + 1)
    ∧ ((ExpectURI request.uri { host := "", path := "/bot123/getMe", query := [] } = none
          ∧ ExpectMethod request.method ("GET") = none) →
        ((TestCase.HandleRequest Variant.singleGetMe s request).1.Fulfilled = s.Fulfilled + 1
          ∧ (TestCase.HandleRequest Variant.errorHandling s request).1.Fulfilled
            = s.Fulfilled + 1))
    ∧ ((¬ (ExpectURI request.uri { host := "", path := "/bot123/getMe", query := [] } = none
          ∧ ExpectMethod request.method ("GET") = none)) →
        ((TestCase.HandleRequest Variant.singleGetMe s request).1.Fulfilled = s.Fulfilled
          ∧ (TestCase.HandleRequest Variant.errorHandling s request).1.Fulfilled
            = s.Fulfilled)) := by
  refine ⟨?_, ?_, ?_, ?_⟩
  · simp only [TestCase.HandleRequest, HandleOffsetTestCase.HandleRequest]
    rw [handleOffset_dispatch_fulfilled]
  · simp only [TestCase.HandleRequest, GetUpdatesAndSendMessagesTestCase.HandleRequest]
    rw [getUpdates_dispatch_fulfilled]
  · rintro ⟨h1, h2⟩
    constructor
    · simp only [TestCase.HandleRequest, SingleGetMeTestCase.HandleRequest, h1, h2]
      rw [singleGetMe_respond_fulfilled]
    · simp only [TestCase.HandleRequest, ErrorHandlingTestCase.HandleRequest, h1, h2]
      rw [errorHandling_respond_fulfilled]
  · intro h
    rcases hu : ExpectURI request.uri { host := "", path := "/bot123/getMe", query := [] }
      with _ | m
    · rcases hm : ExpectMethod request.method ("GET") with _ | m2
      · exact absurd ⟨hu, hm⟩ h
      · constructor
        · simp [TestCase.HandleRequest, SingleGetMeTestCase.HandleRequest, hu, hm,
            TestCase.Fail]
        · simp [TestCase.HandleRequest, ErrorHandlingTestCase.HandleRequest, hu, hm,
            TestCase.Fail]
    · constructor
      · simp [TestCase.HandleRequest, SingleGetMeTestCase.HandleRequest, hu, TestCase.Fail]
      · simp [TestCase.HandleRequest, ErrorHandlingTestCase.HandleRequest, hu, TestCase.Fail]

/-- Witness for the amended C1: the scripted `getMe` request advances the
counter of `SingleGetMeTestCase` from 0 to 1, while a request with a wrong
path leaves it at 0. -/
theorem fulfillment_counter_increment_witness :
    (TestCase.HandleRequest Variant.singleGetMe (initState Variant.singleGetMe)
        getMeRequest).1.Fulfilled = (initState Variant.singleGetMe).Fulfilled + 1
    ∧ (TestCase.HandleRequest Variant.singleGetMe (initState Variant.singleGetMe)
        badPathRequest).1.Fulfilled = (initState Variant.singleGetMe).Fulfilled :=
  ⟨((fulfillment_counter_increment (initState Variant.singleGetMe) getMeRequest).2.2.1
      ⟨by decide, by decide⟩).1,
   ((fulfillment_counter_increment (initState Variant.singleGetMe) badPathRequest).2.2.2
      (by decide)).1⟩

/-- C2: `Check` raises an error exactly when the fulfillment counter is below
the expectation count or the failure list is non-empty; the report then
contains one line for every expectation at index `Fulfilled` or beyond and
one line for every recorded failure. -/
theorem Check_raises_iff_and_report (s : TCState) :
    (TestCase.Check s ≠ none
      ↔ (s.Fulfilled < s.Expectations.length ∨ s.Fails ≠ []))
    ∧ (∀ r, TestCase.Check s = some r →
        (∀ i : Nat, s.Fulfilled ≤ i → (hi : i < s.Expectations.length) →
          ("Expectation not satisfied: " ++ s.Expectations[i]) ∈ r)
        ∧ (∀ f ∈ s.Fails, ("Error encountered: " ++ f) ∈ r)) := by
  constructor
  · rw [Ne, Check_eq_none_iff, not_and_or, Nat.not_le]
  · intro r hr
    have hr' : r = (s.Expectations.drop s.Fulfilled).map
          (fun e => "Expectation not satisfied: " ++ e)
        ++ s.Fails.map (fun e => "Error encountered: " ++ e) := by
      simp only [TestCase.Check] at hr
      split at hr
      · exact absurd hr (by simp)
      · exact (Option.some.inj hr).symm
    subst hr'
    constructor
    · intro i hn hi
      exact List.mem_append_left _ (List.mem_map_of_mem _ (mem_drop_of_le hn hi))
    · intro f hf
      exact List.mem_append_right _ (List.mem_map_of_mem _ hf)

/-- Witness for C2 at a concrete state with two expectations, one of them
fulfilled, and one recorded failure. -/
theorem Check_raises_iff_and_report_witness :
    ("Expectation not satisfied: " ++ "b")
        ∈ (["Expectation not satisfied: b", "Error encountered: f"] : List String)
    ∧ ("Error encountered: " ++ "f")
        ∈ (["Expectation not satisfied: b", "Error encountered: f"] : List String) := by
  have h := (Check_raises_iff_and_report
      { Expectations := ["a", "b"], Fulfilled := 1, Fails := ["f"] }).2
      ["Expectation not satisfied: b", "Error encountered: f"] (by decide)
  exact ⟨h.1 1 (by decide) (by decide), h.2 ("f") (by decide)⟩

/-- C3: when handling a request raises a recoverable validation failure (a
`Fail` call, which records exactly one message), the request handler answers
HTTP 400 with an empty body and the failure does not escape the handler. -/
theorem handler_validation_failure (v : Variant) (s : TCState) (request : Request)
    (h : (TestCase.HandleRequest v s request).2 = Outcome.checkFailed) :
    (FakeHandler.handleRequest v s request).2
        = HandlerResult.responded { status := 400, body := "" }
      ∧ (∃ m, (FakeHandler.handleRequest v s request).1.Fails = s.Fails ++ [m]) := by
  unfold FakeHandler.handleRequest
  obtain ⟨m, hm⟩ := HandleRequest_checkFailed_append v s request h
  split
  next s1 resp heq => rw [heq] at h; simp at h
  next s1 heq => rw [heq] at hm; exact ⟨rfl, m, hm⟩
  next s1 msg heq => rw [heq] at h; simp at h

/-- Witness for C3: the second `getMe` request of the Single getMe scenario
fails validation (unexpected extra request) and is answered HTTP 400. -/
theorem handler_validation_failure_witness :
    (FakeHandler.handleRequest Variant.singleGetMe
        { Expectations := ["Client sends getMe request"], Fulfilled := 1, Fails := [] }
        getMeRequest).2 = HandlerResult.responded { status := 400, body := "" }
      ∧ (∃ m, (FakeHandler.handleRequest Variant.singleGetMe
          { Expectations := ["Client sends getMe request"], Fulfilled := 1, Fails := [] }
          getMeRequest).1.Fails = [] ++ [m]) :=
  handler_validation_failure Variant.singleGetMe
    { Expectations := ["Client sends getMe request"], Fulfilled := 1, Fails := [] }
    getMeRequest (by decide)

/-- C4: `ExpectURI` is invariant under permutation of the query parameters of
either the actual or the expected URI: whether the match succeeds, and which
failure it records, is unchanged. -/
theorem ExpectURI_query_perm_invariant (host1 path1 host2 path2 : String)
    (q1 q1' q2 q2' : List (String × String))
    (h1 : q1.Perm q1') (h2 : q2.Perm q2') :
    ExpectURI { host := host1, path := path1, query := q1 }
        { host := host2, path := path2, query := q2 }
      = ExpectURI { host := host1, path := path1, query := q1' }
        { host := host2, path := path2, query := q2' } := by
  unfold ExpectURI
  rw [sortQuery_eq_of_perm h1, sortQuery_eq_of_perm h2]

/-- Witness for C4: swapping the two query parameters of the actual URI does
not change the result of the match. -/
theorem ExpectURI_query_perm_invariant_witness :
    ExpectURI { host := "", path := "/bot123/getMe", query := [("x", "1"), ("y", "2")] }
        { host := "", path := "/bot123/getMe", query := [("x", "1"), ("y", "2")] }
      = ExpectURI { host := "", path := "/bot123/getMe", query := [("y", "2"), ("x", "1")] }
        { host := "", path := "/bot123/getMe", query := [("x", "1"), ("y", "2")] } :=
  ExpectURI_query_perm_invariant "" "/bot123/getMe" "" "/bot123/getMe"
    [("x", "1"), ("y", "2")] [("y", "2"), ("x", "1")]
    [("x", "1"), ("y", "2")] [("x", "1"), ("y", "2")] (by decide) (by decide)

/-- C5: for every variant, if `Check` raises no error after a sequence of
requests handled from the initial state, the fulfillment counter equals the
length of the expectation list. -/
theorem check_pass_counter_equals_length (v : Variant) (rs : List Request)
    (h : TestCase.Check (runRequests v (initState v) rs) = none) :
    (runRequests v (initState v) rs).Fulfilled
      = (runRequests v (initState v) rs).Expectations.length := by
  obtain ⟨hE, hB⟩ := runRequests_inv v rs (initState v) rfl (Or.inl (Nat.zero_le _))
  rw [Check_eq_none_iff] at h
  rw [hE] at h ⊢
  rcases hB with hB | hB
  · exact Nat.le_antisymm hB h.1
  · exact absurd h.2 hB

/-- Witness for C5: the pagination scenario run to completion passes `Check`
with the counter equal to the three scripted expectations. -/
theorem check_pass_counter_equals_length_witness :
    (runRequests Variant.handleOffset (initState Variant.handleOffset)
        [offsetRequest1, offsetRequest2, offsetRequest2]).Fulfilled
      = (runRequests Variant.handleOffset (initState Variant.handleOffset)
        [offsetRequest1, offsetRequest2, offsetRequest2]).Expectations.length :=
  check_pass_counter_equals_length Variant.handleOffset
    [offsetRequest1, offsetRequest2, offsetRequest2] (by decide)

/-- C6: an unexpected failure that is not a validation failure is recorded
into the failure list with its own message, and an exception then propagates
out of the handler instead of an HTTP 400 answer. -/
theorem handler_unexpected_failure (v : Variant) (s : TCState) (request : Request)
    (msg : String) (h : (TestCase.HandleRequest v s request).2 = Outcome.otherError msg) :
    (FakeHandler.handleRequest v s request).2 = HandlerResult.propagated
      ∧ (FakeHandler.handleRequest v s request).1.Fails
        = (TestCase.HandleRequest v s request).1.Fails ++ [msg] := by
  unfold FakeHandler.handleRequest
  split
  next s1 resp heq => rw [heq] at h; simp at h
  next s1 heq => rw [heq] at h; simp at h
  next s1 m heq =>
    rw [heq] at h
    simp only [Outcome.otherError.injEq] at h
    subst h
    rw [heq]
    exact ⟨rfl, rfl⟩

/-- Witness for C6: an unparsable `sendMessage` body at the second step of
the send-messages scenario propagates out of the handler after being
recorded. -/
theorem handler_unexpected_failure_witness :
    (FakeHandler.handleRequest Variant.getUpdatesAndSendMessages
        { Expectations := Variant.getUpdatesAndSendMessages.Expectations,
          Fulfilled := 1, Fails := [] } badBodyRequest).2 = HandlerResult.propagated
      ∧ (FakeHandler.handleRequest Variant.getUpdatesAndSendMessages
          { Expectations := Variant.getUpdatesAndSendMessages.Expectations,
            Fulfilled := 1, Fails := [] } badBodyRequest).1.Fails
        = (TestCase.HandleRequest Variant.getUpdatesAndSendMessages
            { Expectations := Variant.getUpdatesAndSendMessages.Expectations,
              Fulfilled := 1, Fails := [] } badBodyRequest).1.Fails
          ++ [("JSON parse error")] :=
  handler_unexpected_failure Variant.getUpdatesAndSendMessages
    { Expectations := Variant.getUpdatesAndSendMessages.Expectations,
      Fulfilled := 1, Fails := [] } badBodyRequest ("JSON parse error") (by decide)

/-- C7: Single getMe scenario: the first `GET /bot123/getMe` is answered 200
with the identity fixture; a second identical request records the failure
`Unexpected extra request`, is answered HTTP 400, and `Check` afterwards
fails. -/
theorem singleGetMe_scenario :
    (FakeHandler.handleRequest Variant.singleGetMe (initState Variant.singleGetMe)
        getMeRequest).2
      = HandlerResult.responded { status := 200, body := FakeData.GetMeJson }
    ∧ (FakeHandler.handleRequest Variant.singleGetMe
        (FakeHandler.handleRequest Variant.singleGetMe (initState Variant.singleGetMe)
          getMeRequest).1 getMeRequest).2
      = HandlerResult.responded { status := 400, body := "" }
    ∧ (FakeHandler.handleRequest Variant.singleGetMe
        (FakeHandler.handleRequest Variant.singleGetMe (initState Variant.singleGetMe)
          getMeRequest).1 getMeRequest).1.Fails = ["Unexpected extra request"]
    ∧ TestCase.Check (FakeHandler.handleRequest Variant.singleGetMe
        (FakeHandler.handleRequest Variant.singleGetMe (initState Variant.singleGetMe)
          getMeRequest).1 getMeRequest).1 ≠ none := by
  decide

theorem handleOffset_step2_wrong_offset (x : String) (hx : x ≠ "851793508") :
    (FakeHandler.handleRequest Variant.handleOffset
      { Expectations := Variant.handleOffset.Expectations, Fulfilled := 1, Fails := [] }
      (offsetRequest x)).1.Fails = [("Invalid Query params")] := by
  unfold FakeHandler.handleRequest
  simp only [TestCase.HandleRequest, HandleOffsetTestCase.HandleRequest,
    HandleOffsetTestCase.dispatch, ExpectURI_wrong_offset x hx]
  norm_num [TestCase.Fail]

/-- C8: pagination scenario: the first poll (`timeout=5`) is answered with
the two-message fixture; the correct second and third polls
(`offset=851793508&timeout=5`) are answered with the zero- and one-message
fixtures; `Check` passes after exactly these three requests in order; and at
the second step a wrong or missing `offset` records a failure. -/
theorem handleOffset_scenario :
    (FakeHandler.handleRequest Variant.handleOffset (initState Variant.handleOffset)
        offsetRequest1).2
      = HandlerResult.responded { status := 200, body := FakeData.GetUpdatesTwoMessages }
    ∧ (FakeHandler.handleRequest Variant.handleOffset
        (runRequests Variant.handleOffset (initState Variant.handleOffset)
          [offsetRequest1]) offsetRequest2).2
      = HandlerResult.responded { status := 200, body := FakeData.GetUpdatesZeroMessages }
    ∧ (FakeHandler.handleRequest Variant.handleOffset
        (runRequests Variant.handleOffset (initState Variant.handleOffset)
          [offsetRequest1, offsetRequest2]) offsetRequest2).2
      = HandlerResult.responded { status := 200, body := FakeData.GetupdatesOneMessage }
    ∧ TestCase.Check (runRequests Variant.handleOffset (initState Variant.handleOffset)
        [offsetRequest1, offsetRequest2, offsetRequest2]) = none
    ∧ (∀ x, x ≠ "851793508" →
        (FakeHandler.handleRequest Variant.handleOffset
          (runRequests Variant.handleOffset (initState Variant.handleOffset)
            [offsetRequest1]) (offsetRequest x)).1.Fails = [("Invalid Query params")])
    ∧ (FakeHandler.handleRequest Variant.handleOffset
        (runRequests Variant.handleOffset (initState Variant.handleOffset)
          [offsetRequest1]) offsetRequest1).1.Fails = [("Invalid Query params")] := by
  refine ⟨by decide, by decide, by decide, by decide, ?_, by decide⟩
  intro x hx
  rw [show runRequests Variant.handleOffset (initState Variant.handleOffset) [offsetRequest1]
      = { Expectations := Variant.handleOffset.Expectations, Fulfilled := 1, Fails := [] }
    from by decide]
  exact handleOffset_step2_wrong_offset x hx

/-- Witness for C8: the wrong offset `0` at the second step records the
query-mismatch failure. -/
theorem handleOffset_scenario_witness :
    (FakeHandler.handleRequest Variant.handleOffset
      (runRequests Variant.handleOffset (initState Variant.handleOffset)
        [offsetRequest1]) (offsetRequest ("0"))).1.Fails = [("Invalid Query params")] :=
  handleOffset_scenario.2.2.2.2.1 ("0") (by decide)

/-- C9 counterexample: a query-parameter mismatch records the constant
message `Invalid Query params`, which names neither the expected nor the
actual value: it contains neither value, and entirely different query values
yield the same message. -/
theorem query_mismatch_message_constant :
    ExpectURI { host := "", path := "/bot123/getMe", query := [("x", "1")] }
        { host := "", path := "/bot123/getMe", query := [("x", "2")] }
      = some ("Invalid Query params")
    ∧ ¬ ('1' ∈ String.toList ("Invalid Query params"))
    ∧ ¬ ('2' ∈ String.toList ("Invalid Query params"))
    ∧ ExpectURI { host := "", path := "/bot123/getMe", query := [("x", "1")] }
        { host := "", path := "/bot123/getMe", query := [("x", "2")] }
      = ExpectURI { host := "", path := "/bot123/getMe", query := [("x", "7")] }
        { host := "", path := "/bot123/getMe", query := [("x", "9")] } := by
  decide

/-- C9 amended: host, path and method mismatches record messages naming both
the expected and the actual value; a query-parameter mismatch records the
fixed message `Invalid Query params`, which names neither. -/
theorem mismatch_message_contents (a e : URI) (m em : String) :
    (a.host ≠ e.host →
      ExpectURI a e = some ("Invalid Host: expected " ++ e.host ++ ", got " ++ a.host))
    ∧ (a.host = e.host → a.path ≠ e.path →
      ExpectURI a e = some ("Invalid Path: expected " ++ e.path ++ ", got " ++ a.path))
    ∧ (a.host = e.host → a.path = e.path → sortQuery a.query ≠ sortQuery e.query →
      ExpectURI a e = some ("Invalid Query params"))
    ∧ (m ≠ em →
      ExpectMethod m em = some ("Invalid method: expected " ++ em ++ ", got " ++ m)) := by
  refine ⟨?_, ?_, ?_, ?_⟩
  · intro h
    unfold ExpectURI
    rw [if_pos h]
  · intro h1 h2
    unfold ExpectURI
    rw [if_neg (fun hne : a.host ≠ e.host => hne h1), if_pos h2]
  · intro h1 h2 h3
    unfold ExpectURI
    rw [if_neg (fun hne : a.host ≠ e.host => hne h1),
      if_neg (fun hne : a.path ≠ e.path => hne h2), if_pos h3]
  · intro h
    unfold ExpectMethod
    rw [if_pos h]

/-- Witness for the amended C9: a host mismatch and a method mismatch with
their full messages. -/
theorem mismatch_message_contents_witness :
    ExpectURI { host := "h1", path := "/p", query := [] }
        { host := "h2", path := "/p", query := [] }
      = some ("Invalid Host: expected " ++ "h2" ++ ", got " ++ "h1")
    ∧ ExpectMethod ("POST") ("GET")
      = some ("Invalid method: expected " ++ "GET" ++ ", got " ++ "POST") :=
  ⟨(mismatch_message_contents { host := "h1", path := "/p", query := [] }
      { host := "h2", path := "/p", query := [] } ("") ("")).1 (by decide),
   (mismatch_message_contents { host := "", path := "", query := [] }
      { host := "", path := "", query := [] } ("POST") ("GET")).2.2.2 (by decide)⟩

/-- C10: the failure list only grows: handling a request can only append to
it, `Fail` appends exactly one message before raising, and once a failure is
recorded every later `Check` raises an error. -/
theorem fails_monotone (v : Variant) (s : TCState) (request : Request)
    (message : String) (rs : List Request) (h : s.Fails ≠ []) :
    (∃ t, (FakeHandler.handleRequest v s request).1.Fails = s.Fails ++ t)
    ∧ (TestCase.Fail s message).Fails = s.Fails ++ [message]
    ∧ TestCase.Check (runRequests v s rs) ≠ none := by
  refine ⟨handleRequest_fails_append v s request, rfl, ?_⟩
  rw [Ne, Check_eq_none_iff]
  rintro ⟨-, hnil⟩
  obtain ⟨t, ht⟩ := runRequests_fails_append v rs s
  rw [ht] at hnil
  exact h (List.append_eq_nil.mp hnil).1

/-- Witness for C10 at a state that already recorded one failure. -/
theorem fails_monotone_witness :
    (∃ t, (FakeHandler.handleRequest Variant.singleGetMe
        { Expectations := ["Client sends getMe request"], Fulfilled := 0, Fails := ["boom"] }
        getMeRequest).1.Fails = ["boom"] ++ t)
    ∧ (TestCase.Fail
        { Expectations := ["Client sends getMe request"], Fulfilled := 0, Fails := ["boom"] }
        ("later")).Fails = ["boom"] ++ [("later")]
    ∧ TestCase.Check (runRequests Variant.singleGetMe
        { Expectations := ["Client sends getMe request"], Fulfilled := 0, Fails := ["boom"] }
        [getMeRequest]) ≠ none :=
  fails_monotone Variant.singleGetMe
    { Expectations := ["Client sends getMe request"], Fulfilled := 0, Fails := ["boom"] }
    getMeRequest ("later") [getMeRequest] (by decide)
